import Mathlib

/-!
Verification of the thriftpool repository: a shallow embedding of the
process-manager, renewer, hub, ZMQ-worker and HTTP-handler logic, with
theorems settling the specification claims about them.

Sources embedded:
* `thriftpool/components/manager/processes.py` — `Waiter`, `ProcessFactory`,
  `ProcessManager`;
* `thriftpool/components/manager/renewer.py` — `Renewer`;
* `thriftpool/app/hub.py` — `Hub`, `Waiter`;
* `socket_zmq/factory.py` — `Worker`;
* `thriftpool/http/handlers/workers.py` — `SpecificClientHandler`.
-/

namespace ThriftPool

/-! ### Association lists modelling Python dicts

Python dict operations used by the code: `d[k] = v` (update in place or
append), `d.pop(k)` (remove, `KeyError` if absent), `d.get(k)` / `k in d`.
-/

def alookup {α β : Type} [DecidableEq α] (k : α) : List (α × β) → Option β
  | [] => none
  | (k2, v) :: rest => if k2 = k then some v else alookup k rest

def ainsert {α β : Type} [DecidableEq α] (k : α) (v : β) : List (α × β) → List (α × β)
  | [] => [(k, v)]
  | (k2, v2) :: rest => if k2 = k then (k, v) :: rest else (k2, v2) :: ainsert k v rest

def aerase {α β : Type} [DecidableEq α] (k : α) (l : List (α × β)) : List (α × β) :=
  l.filter (fun p => decide (p.1 ≠ k))

namespace Manager

/-! ### `processes.py` — `Waiter`

State: a threading event (`_event`) and an `_aborted` flag.  `done()` sets
the event; `abort()` sets the flag and the event; `wait()` waits on the
event (up to a timeout), raises `Aborted` if the flag is set, otherwise
returns `event.is_set()`, and in a `finally` block resets both.  The model
takes the state as it is when `wait` stops blocking.
-/

structure Waiter where
  eventSet : Bool
  aborted : Bool
deriving DecidableEq, Repr

def Waiter.fresh : Waiter := ⟨false, false⟩

/-- `reset`: `self._aborted = False; self._event.clear()`. -/
def Waiter.reset (_ : Waiter) : Waiter := ⟨false, false⟩

/-- `abort`: `self._aborted = True; self._event.set()`. -/
def Waiter.abort (w : Waiter) : Waiter := { w with eventSet := true, aborted := true }

/-- `done`: `self._event.set()`. -/
def Waiter.done (w : Waiter) : Waiter := { w with eventSet := true }

inductive WaitOutcome
  | ok (isSet : Bool)
  | abortedErr
deriving DecidableEq, Repr

/-- `wait`: wait for the event, raise `Aborted` if the flag is set, else
return `event.is_set()`; reset in a `finally` block. -/
def Waiter.wait (w : Waiter) : WaitOutcome × Waiter :=
  (if w.aborted then .abortedErr else .ok w.eventSet, w.reset)

/-! ### `processes.py` — `ProcessFactory._handle_exit` and `create_config` -/

inductive LogLevel
  | info
  | critical
deriving DecidableEq, Repr

/-- Level chosen by `_handle_exit`:
`if exit_status != 0 or term_signal not in (0, 15): critical else: info`. -/
def exitLogLevel (termSignal exitStatus : Int) : LogLevel :=
  if exitStatus ≠ 0 ∨ (termSignal ≠ 0 ∧ termSignal ≠ 15) then .critical else .info

inductive ExitAction
  | log (lvl : LogLevel)
  | unregister (pid : Nat)
  | teardown (pid : Nat)
deriving DecidableEq, Repr

/-- `_handle_exit(pid, term_signal, exit_status)`: log, then
`broker.unregister(pid)`, then (when set) `teardown_callback(pid)`. -/
def handle_exit (pid : Nat) (termSignal exitStatus : Int)
    (hasTeardownCallback : Bool) : List ExitAction :=
  [.log (exitLogLevel termSignal exitStatus), .unregister pid]
    ++ (if hasTeardownCallback then [.teardown pid] else [])

/-- `ProcessConfig` fields passed by `ProcessFactory.create_config`. -/
structure ProcessConfig where
  name : String
  cmd : String
  args : List String
  env : List (String × String)
  numprocesses : Nat
  redirect_input : Bool
  redirect_output : List String
  custom_streams : List String
  custom_channels : List Nat
  graceful_timeout : Int
deriving DecidableEq, Repr

/-- `create_config(channels)`: `sys.executable`, `['-c', command]`,
`dict(os.environ, IS_WORKER='1')`, `config.WORKERS` processes, stdout/stderr
redirection, the three custom streams, `config.PROCESS_STOP_TIMEOUT`. -/
def create_config (environ : List (String × String)) (command sysExecutable : String)
    (workersConfig : Nat) (processStopTimeout : Int) (channels : List Nat) :
    ProcessConfig :=
  { name := "worker"
    cmd := sysExecutable
    args := ["-c", command]
    env := ainsert "IS_WORKER" "1" environ
    numprocesses := workersConfig
    redirect_input := true
    redirect_output := ["out", "err"]
    custom_streams := ["handshake", "incoming", "outgoing"]
    custom_channels := channels
    graceful_timeout := processStopTimeout }

/-! ### `processes.py` — `ProcessManager` bootstrap bookkeeping

`_bootstrapped` maps a worker pid to `loop.now()` at registration.
`setup_cb` records the pid and fires `ready_cb` (hence
`_start_waiter.done()`) whenever `is_ready()` holds afterwards;
`teardown_cb` pops the pid.  `fires` counts the `ready_cb` invocations.
-/

structure PMState where
  bootstrapped : List (Nat × Int)
  fires : Nat
deriving DecidableEq, Repr

def PMState.empty : PMState := ⟨[], 0⟩

/-- `is_ready`: `len(self._bootstrapped) >= self.app.config.WORKERS`. -/
def is_ready (workers : Nat) (s : PMState) : Bool :=
  workers ≤ s.bootstrapped.length

/-- `setup_cb`: `self._bootstrapped[process.pid] = self.loop.now()`, then
`if self.is_ready(): self.ready_cb()` where `ready_cb` calls
`self._start_waiter.done()`. -/
def setup_cb (workers : Nat) (s : PMState) (pid : Nat) (now : Int) : PMState :=
  let s2 : PMState := ⟨ainsert pid now s.bootstrapped, s.fires⟩
  if is_ready workers s2 then ⟨s2.bootstrapped, s2.fires + 1⟩ else s2

/-- `teardown_cb`: `self._bootstrapped.pop(pid)`; `KeyError` when absent. -/
def teardown_cb (boot : List (Nat × Int)) (pid : Nat) : Option (List (Nat × Int)) :=
  if (alookup pid boot).isSome then some (aerase pid boot) else none

inductive PMEvent
  | setup (pid : Nat) (now : Int)
  | teardown (pid : Nat)
deriving DecidableEq, Repr

def pmStep (workers : Nat) (s : PMState) : PMEvent → Option PMState
  | .setup pid now => some (setup_cb workers s pid now)
  | .teardown pid => (teardown_cb s.bootstrapped pid).map (fun b => ⟨b, s.fires⟩)

def pmRun (workers : Nat) (s : PMState) : List PMEvent → Option PMState
  | [] => some s
  | e :: es =>
    match pmStep workers s e with
    | none => none
    | some s2 => pmRun workers s2 es

/-- Number of bootstrap events in a trace whose post-state meets the
readiness threshold: the firing count predicted for `pmRun`. -/
def firesOfTrace (workers : Nat) (boot : List (Nat × Int)) : List PMEvent → Nat
  | [] => 0
  | .setup pid now :: es =>
      let b2 := ainsert pid now boot
      (if workers ≤ b2.length then 1 else 0) + firesOfTrace workers b2 es
  | .teardown pid :: es => firesOfTrace workers (aerase pid boot) es

end Manager

namespace Renewer

/-! ### `renewer.py` — `Renewer._loop_cb`

On a tick: return unless `processes.is_ready()`; set the timer repeat to
`resolution`; walk `sorted(processes)`; for the first process whose
`(now - start_time) // 1000` strictly exceeds `WORKER_TTL`, send `SIGTERM`
(`ProcessNotFound` swallowed), set the repeat to `repeat_delay` and break.
-/

def resolution : Nat := 1

def repeatDelay : Nat := 60

def sortedByPid (l : List (Nat × Int)) : List (Nat × Int) :=
  List.insertionSort (fun a b => a.1 ≤ b.1) l

/-- `lifetime = (now - processes.get_start_time(process_id)) // 1000`
(Python `//` is floor division). -/
def lifetimeOf (now startTime : Int) : Int := Int.fdiv (now - startTime) 1000

def firstExpired (now ttl : Int) : List (Nat × Int) → Option Nat
  | [] => none
  | (pid, st) :: rest =>
    if ttl < lifetimeOf now st then some pid else firstExpired now ttl rest

structure RenewTick where
  killed : Option Nat
  timerRepeat : Nat
deriving DecidableEq, Repr

/-- One `_loop_cb` tick: the pid SIGTERMed (if any) and the timer repeat
interval afterwards (`timerRepeat0` being its value before the tick). -/
def loop_cb (ready : Bool) (now ttl : Int) (boot : List (Nat × Int))
    (timerRepeat0 : Nat) : RenewTick :=
  if ready then
    match firstExpired now ttl (sortedByPid boot) with
    | some pid => ⟨some pid, repeatDelay⟩
    | none => ⟨none, resolution⟩
  else ⟨none, timerRepeat0⟩

end Renewer

namespace Hub

/-! ### `app/hub.py` — `Hub`

The hub greenlet runs `run()`: `loop.start()` until the `_async_stop`
watcher fires `_shutdown`, then `_shutdown_complete.set()`, after which the
greenlet is dead.  Greenlet and event primitives are modelled sequentially:
switching into a dead greenlet returns at once; `Event.wait` on a set event
returns at once; `async.send` to a stopped loop runs no callback.
-/

structure HubState where
  loopRunning : Bool
  shutdownComplete : Bool
  greenletDead : Bool
deriving DecidableEq, Repr

/-- `start`: `self._greenlet.switch()` — a no-op once the hub greenlet is
dead; otherwise it enters `run()` and returns when the loop has stopped. -/
def startOp (h : HubState) : HubState :=
  if h.greenletDead then h
  else { loopRunning := false, shutdownComplete := true, greenletDead := true }

/-- `stop`: `self._async_stop.send(); self._shutdown_complete.wait()`.
`none` models blocking forever (loop not running, event never set). -/
def stopOp (h : HubState) : Option HubState :=
  if h.loopRunning then
    some { loopRunning := false, shutdownComplete := true, greenletDead := true }
  else if h.shutdownComplete then some h
  else none

inductive SwitchResult
  | runtimeError (msg : String)
  | switched (target : Nat)
deriving DecidableEq, Repr

/-- `Hub.switch`: `if getcurrent() is self._greenlet: raise RuntimeError(...)`,
otherwise `return self._greenlet.switch()`.  Greenlets are identified by
number. -/
def hubSwitch (currentGreenlet hubGreenlet : Nat) : SwitchResult :=
  if currentGreenlet = hubGreenlet then
    .runtimeError "Impossible to call blocking function in the event loop callback"
  else .switched hubGreenlet

/-! ### `app/hub.py` — `Waiter`

`_exception` is `_NONE` (nothing stored), `None` (a value is stored in
`self.value`) or the exception info given to `throw`. -/

inductive ExcSlot (E : Type)
  | noneSentinel
  | noExc
  | exc (e : E)
deriving DecidableEq, Repr

structure HWaiter (V E : Type) where
  greenlet : Option Nat
  value : Option V
  excSlot : ExcSlot E
deriving DecidableEq, Repr

def HWaiter.mk0 {V E : Type} : HWaiter V E := ⟨none, none, .noneSentinel⟩

/-- `clear`: `self.greenlet = None; self.value = None; self._exception = _NONE`. -/
def HWaiter.clear {V E : Type} (_ : HWaiter V E) : HWaiter V E := HWaiter.mk0

/-- `ready`: `self._exception is not _NONE`. -/
def HWaiter.ready {V E : Type} (w : HWaiter V E) : Bool :=
  match w.excSlot with
  | .noneSentinel => false
  | _ => true

/-- `successful`: `self._exception is None`. -/
def HWaiter.successful {V E : Type} (w : HWaiter V E) : Bool :=
  match w.excSlot with
  | .noExc => true
  | _ => false

inductive SwitchEff (V : Type)
  | stored
  | switchedTo (g : Nat) (v : Option V)
deriving DecidableEq, Repr

/-- `switch(value=None)`: with no greenlet waiting, store the value;
otherwise switch to the waiting greenlet. -/
def HWaiter.switch {V E : Type} (w : HWaiter V E) (v : Option V) :
    HWaiter V E × SwitchEff V :=
  match w.greenlet with
  | none => ({ w with value := v, excSlot := .noExc }, .stored)
  | some g => (w, .switchedTo g v)

inductive ThrowEff
  | stored
  | thrownTo (g : Nat)
deriving DecidableEq, Repr

/-- `throw(*throw_args)`: with no greenlet waiting, store the exception;
otherwise throw into the waiting greenlet. -/
def HWaiter.throw {V E : Type} (w : HWaiter V E) (e : E) :
    HWaiter V E × ThrowEff :=
  match w.greenlet with
  | none => ({ w with excSlot := .exc e }, .stored)
  | some g => (w, .thrownTo g)

inductive GetOutcome (V E : Type)
  | returned (v : Option V)
  | raised (e : E)
  | blocked
deriving DecidableEq, Repr

/-- `get`: if something is stored, return the value or re-raise the stored
exception — without clearing the slot; otherwise record the current
greenlet and block in `hub.switch()`. -/
def HWaiter.get {V E : Type} (w : HWaiter V E) (currentGreenlet : Nat) :
    GetOutcome V E × HWaiter V E :=
  match w.excSlot with
  | .noExc => (.returned w.value, w)
  | .exc e => (.raised e, w)
  | .noneSentinel => (.blocked, { w with greenlet := some currentGreenlet })

end Hub

namespace SocketZmq

/-! ### `socket_zmq/factory.py` — `Worker.process`

Reads a request frame, runs the Thrift processor into a memory transport,
replies with the transport contents; any exception from the processor is
logged and an empty string is sent instead.  The processor (Thrift code
outside this repository) is a parameter mapping the frame to either an
output buffer or an exception. -/

structure ProcessStep where
  sentReply : List Nat
  loggedException : Bool
  propagated : Bool
deriving DecidableEq, Repr

namespace Worker

def process {E : Type} (processor : List Nat → Except E (List Nat))
    (frame : List Nat) : ProcessStep :=
  match processor frame with
  | .ok buf => { sentReply := buf, loggedException := false, propagated := false }
  | .error _ => { sentReply := [], loggedException := true, propagated := false }

end Worker

end SocketZmq

namespace Http

/-! ### `http/handlers/workers.py` — `SpecificClientHandler.get`

`int(args[0])` (a `ValueError` yields 400 with `{"error": "bad_value"}`);
an unregistered pid yields 404 with no body; a registered pid yields 200
with the JSON-serialized worker data. -/

def digitsToNat (cs : List Char) : Nat :=
  cs.foldl (fun acc c => acc * 10 + (c.toNat - 48)) 0

def stripWS (cs : List Char) : List Char :=
  ((cs.dropWhile Char.isWhitespace).reverse.dropWhile Char.isWhitespace).reverse

/-- Python `int(s)`: surrounding whitespace stripped, an optional single
sign, then one or more decimal digits; `ValueError` otherwise. -/
def pyIntParse (s : String) : Option Int :=
  match stripWS s.toList with
  | [] => none
  | c :: rest =>
    let digits := if c = '-' ∨ c = '+' then rest else c :: rest
    let sign : Int := if c = '-' then -1 else 1
    if !digits.isEmpty && digits.all Char.isDigit then
      some (sign * (digitsToNat digits : Int))
    else none

inductive RespBody
  | errBadValue
  | jsonData (s : String)
deriving DecidableEq, Repr

structure HttpResponse where
  status : Nat
  body : Option RespBody
deriving DecidableEq, Repr

/-- `SpecificClientHandler.get(*args)` with `args[0] = arg`; `broker` holds
the registered pids and `dataOf` the JSON the worker proxy returns. -/
def specificClientGet (arg : String) (broker : List Int)
    (dataOf : Int → String) : HttpResponse :=
  match pyIntParse arg with
  | none => { status := 400, body := some .errBadValue }
  | some pid =>
    if pid ∈ broker then { status := 200, body := some (.jsonData (dataOf pid)) }
    else { status := 404, body := none }

end Http

/-! ## Helper lemmas -/

theorem alookup_ainsert_self {α β : Type} [DecidableEq α] (k : α) (v : β)
    (l : List (α × β)) : alookup k (ainsert k v l) = some v := by
  induction l with
  | nil => simp [ainsert, alookup]
  | cons p rest ih =>
    obtain ⟨k2, v2⟩ := p
    by_cases h : k2 = k
    · simp [ainsert, alookup, h]
    · simp [ainsert, alookup, h, ih]

theorem alookup_ainsert_ne {α β : Type} [DecidableEq α] (k k2 : α) (v : β)
    (l : List (α × β)) (h : k2 ≠ k) :
    alookup k2 (ainsert k v l) = alookup k2 l := by
  induction l with
  | nil => simp [ainsert, alookup, Ne.symm h]
  | cons p rest ih =>
    obtain ⟨k3, v3⟩ := p
    by_cases h3 : k3 = k
    · subst h3
      simp [ainsert, alookup, Ne.symm h]
    · simp only [ainsert, if_neg h3]
      by_cases h4 : k3 = k2
      · simp [alookup, h4]
      · simp [alookup, h4, ih]

theorem alookup_aerase_self {α β : Type} [DecidableEq α] (k : α)
    (l : List (α × β)) : alookup k (aerase k l) = none := by
  induction l with
  | nil => simp [aerase, alookup]
  | cons p rest ih =>
    obtain ⟨k2, v2⟩ := p
    by_cases h : k2 = k
    · simpa [aerase, h] using ih
    · simpa [aerase, alookup, h] using ih

end ThriftPool

/-! ## Claim theorems -/

/-- C4: For every `ProcessManager` `Waiter`, `wait()` returns true when `done()`
was signalled before the timeout, false when the timeout elapsed with no
signal, and raises `Aborted` when `abort()` was called (abort taking
precedence over a concurrent `done`); in every outcome the event and the
aborted flag are reset before `wait()` finishes. -/
theorem ThriftPool.Manager.waiter_wait_spec (w : ThriftPool.Manager.Waiter) :
    ((w.wait).2 = ThriftPool.Manager.Waiter.fresh)
    ∧ (w.aborted = false →
        (w.done).wait = (ThriftPool.Manager.WaitOutcome.ok true,
                         ThriftPool.Manager.Waiter.fresh))
    ∧ (ThriftPool.Manager.Waiter.fresh.wait
        = (ThriftPool.Manager.WaitOutcome.ok false, ThriftPool.Manager.Waiter.fresh))
    ∧ ((w.abort).wait.1 = ThriftPool.Manager.WaitOutcome.abortedErr)
    ∧ ((w.done.abort).wait.1 = ThriftPool.Manager.WaitOutcome.abortedErr
        ∧ (w.abort.done).wait.1 = ThriftPool.Manager.WaitOutcome.abortedErr) := by
  obtain ⟨e, a⟩ := w
  cases a <;> simp [ThriftPool.Manager.Waiter.wait, ThriftPool.Manager.Waiter.done,
    ThriftPool.Manager.Waiter.abort, ThriftPool.Manager.Waiter.reset,
    ThriftPool.Manager.Waiter.fresh]

/-- C4 witness: concrete instantiation discharging the hypothesis. -/
theorem ThriftPool.Manager.waiter_wait_spec_witness :
    (ThriftPool.Manager.Waiter.fresh.done).wait
      = (ThriftPool.Manager.WaitOutcome.ok true, ThriftPool.Manager.Waiter.fresh) :=
  (ThriftPool.Manager.waiter_wait_spec ThriftPool.Manager.Waiter.fresh).2.1 rfl

/-- C1 counterexample: with `WORKERS = 1`, the trace
bootstrap(1); teardown(1); bootstrap(2) makes `setup_cb` invoke `ready_cb`
(hence `_start_waiter.done()`) twice, not exactly once. -/
theorem ThriftPool.Manager.ready_fired_twice_counterexample :
    (ThriftPool.Manager.pmRun 1 ThriftPool.Manager.PMState.empty
        [ThriftPool.Manager.PMEvent.setup 1 0,
         ThriftPool.Manager.PMEvent.teardown 1,
         ThriftPool.Manager.PMEvent.setup 2 0]).map ThriftPool.Manager.PMState.fires
      = some 2 ∧ (2 : Nat) ≠ 1 := by
  constructor
  · rfl
  · decide

/-- C1 amended: over any event sequence handled by `ProcessManager`, the
start waiter's `done()` is invoked (via `ready_cb`) exactly on those
bootstrap events after which `|bootstrapped| ≥ WORKERS` holds — so at least
once when the threshold is first reached, and again on every later
bootstrap event at which the threshold holds; teardown events never invoke
it. -/
theorem ThriftPool.Manager.ready_fires_iff_threshold
    (workers : Nat) (events : List ThriftPool.Manager.PMEvent) :
    ∀ s s2 : ThriftPool.Manager.PMState,
      ThriftPool.Manager.pmRun workers s events = some s2 →
      s2.fires = s.fires
        + ThriftPool.Manager.firesOfTrace workers s.bootstrapped events := by
  induction events with
  | nil =>
    intro s s2 h
    simp only [ThriftPool.Manager.pmRun, Option.some.injEq] at h
    subst h
    simp [ThriftPool.Manager.firesOfTrace]
  | cons e es ih =>
    intro s s2 h
    cases e with
    | setup pid now =>
      simp only [ThriftPool.Manager.pmRun, ThriftPool.Manager.pmStep] at h
      have h2 := ih _ _ h
      by_cases hr : workers ≤ (ThriftPool.ainsert pid now s.bootstrapped).length
      · simp [ThriftPool.Manager.setup_cb, ThriftPool.Manager.is_ready, hr] at h2
        simp [ThriftPool.Manager.firesOfTrace, hr]
        omega
      · simp [ThriftPool.Manager.setup_cb, ThriftPool.Manager.is_ready, hr] at h2
        simp [ThriftPool.Manager.firesOfTrace, hr]
        omega
    | teardown pid =>
      simp only [ThriftPool.Manager.pmRun, ThriftPool.Manager.pmStep,
        ThriftPool.Manager.teardown_cb] at h
      by_cases hp : (ThriftPool.alookup pid s.bootstrapped).isSome
      · simp only [hp, if_true, Option.map_some] at h
        have h2 := ih _ _ h
        simpa [ThriftPool.Manager.firesOfTrace] using h2
      · simp [hp] at h

/-- C1 witness: concrete instantiation discharging the hypothesis. -/
theorem ThriftPool.Manager.ready_fires_iff_threshold_witness :
    (ThriftPool.Manager.PMState.mk [(1, 0)] 1).fires
      = ThriftPool.Manager.PMState.empty.fires
        + ThriftPool.Manager.firesOfTrace 1
            ThriftPool.Manager.PMState.empty.bootstrapped
            [ThriftPool.Manager.PMEvent.setup 1 0] :=
  ThriftPool.Manager.ready_fires_iff_threshold 1
    [ThriftPool.Manager.PMEvent.setup 1 0]
    ThriftPool.Manager.PMState.empty ⟨[(1, 0)], 1⟩ (by rfl)

/-- C3: for every exit event, the process factory logs CRITICAL iff
`exit_status ≠ 0` or `term_signal ∉ {0, 15}` and INFO otherwise, then calls
`broker.unregister(pid)`, and after that the teardown callback, which
removes the pid from the bootstrapped map. -/
theorem ThriftPool.Manager.handle_exit_spec (pid : Nat) (t e : Int) :
    (ThriftPool.Manager.handle_exit pid t e true
        = [ThriftPool.Manager.ExitAction.log (ThriftPool.Manager.exitLogLevel t e),
           ThriftPool.Manager.ExitAction.unregister pid,
           ThriftPool.Manager.ExitAction.teardown pid])
    ∧ (ThriftPool.Manager.exitLogLevel t e = ThriftPool.Manager.LogLevel.critical
        ↔ (e ≠ 0 ∨ (t ≠ 0 ∧ t ≠ 15)))
    ∧ (ThriftPool.Manager.exitLogLevel t e = ThriftPool.Manager.LogLevel.info
        ↔ ¬(e ≠ 0 ∨ (t ≠ 0 ∧ t ≠ 15)))
    ∧ (∀ boot boot2, ThriftPool.Manager.teardown_cb boot pid = some boot2 →
        ThriftPool.alookup pid boot2 = none) := by
  refine ⟨by simp [ThriftPool.Manager.handle_exit], ?_, ?_, ?_⟩
  · unfold ThriftPool.Manager.exitLogLevel
    split <;> simp_all
  · unfold ThriftPool.Manager.exitLogLevel
    split <;> simp_all
  · intro boot boot2 hb
    unfold ThriftPool.Manager.teardown_cb at hb
    by_cases hp : (ThriftPool.alookup pid boot).isSome
    · simp only [hp, if_true, Option.some.injEq] at hb
      subst hb
      exact ThriftPool.alookup_aerase_self pid boot
    · simp [hp] at hb

/-- C3 witness: a normal SIGTERM exit of worker 3 with the pid registered. -/
theorem ThriftPool.Manager.handle_exit_spec_witness :
    ThriftPool.Manager.handle_exit 3 15 0 true
        = [ThriftPool.Manager.ExitAction.log ThriftPool.Manager.LogLevel.info,
           ThriftPool.Manager.ExitAction.unregister 3,
           ThriftPool.Manager.ExitAction.teardown 3]
    ∧ ThriftPool.alookup 3 ([] : List (Nat × Int)) = none := by
  refine ⟨?_, (ThriftPool.Manager.handle_exit_spec 3 15 0).2.2.2 [(3, 5)] [] rfl⟩
  have h := (ThriftPool.Manager.handle_exit_spec 3 15 0).1
  simpa using h

/-- C9: `create_config` builds a `ProcessConfig` whose environment is the
master environment extended with `IS_WORKER='1'`, with `WORKERS` processes,
custom streams handshake/incoming/outgoing, graceful timeout
`PROCESS_STOP_TIMEOUT`, and stdout/stderr redirection. -/
theorem ThriftPool.Manager.create_config_spec
    (environ : List (String × String)) (command sysExecutable : String)
    (workersConfig : Nat) (processStopTimeout : Int) (channels : List Nat) :
    ∀ cfg : ThriftPool.Manager.ProcessConfig,
    cfg = ThriftPool.Manager.create_config environ command sysExecutable
        workersConfig processStopTimeout channels →
    ThriftPool.alookup "IS_WORKER" cfg.env = some "1"
    ∧ (∀ k, k ≠ "IS_WORKER" →
        ThriftPool.alookup k cfg.env = ThriftPool.alookup k environ)
    ∧ cfg.numprocesses = workersConfig
    ∧ cfg.custom_streams = ["handshake", "incoming", "outgoing"]
    ∧ cfg.graceful_timeout = processStopTimeout
    ∧ cfg.redirect_output = ["out", "err"]
    ∧ cfg.redirect_input = true := by
  rintro cfg rfl
  refine ⟨?_, ?_, rfl, rfl, rfl, rfl, rfl⟩
  · exact ThriftPool.alookup_ainsert_self _ _ _
  · intro k hk
    exact ThriftPool.alookup_ainsert_ne _ _ _ _ hk

/-- C9 witness: a one-entry environment, with `PATH` untouched. -/
theorem ThriftPool.Manager.create_config_spec_witness :
    ThriftPool.alookup "PATH"
        (ThriftPool.Manager.create_config [("PATH", "/bin")] "c" "py" 4 10 []).env
      = ThriftPool.alookup "PATH" [("PATH", "/bin")] :=
  (ThriftPool.Manager.create_config_spec [("PATH", "/bin")] "c" "py" 4 10 []
    (ThriftPool.Manager.create_config [("PATH", "/bin")] "c" "py" 4 10 []) rfl).2.1
    "PATH" (by decide)

namespace ThriftPool.Renewer

instance : IsTotal (Nat × Int) (fun a b => a.1 ≤ b.1) :=
  ⟨fun a b => Nat.le_total a.1 b.1⟩

instance : IsTrans (Nat × Int) (fun a b => a.1 ≤ b.1) :=
  ⟨fun _ _ _ h1 h2 => Nat.le_trans h1 h2⟩

theorem firstExpired_mem (now ttl : Int) :
    ∀ l pid, firstExpired now ttl l = some pid →
      ∃ st, (pid, st) ∈ l ∧ ttl < lifetimeOf now st := by
  intro l
  induction l with
  | nil => intro pid h; simp [firstExpired] at h
  | cons p rest ih =>
    obtain ⟨p1, st1⟩ := p
    intro pid hfe
    by_cases hc : ttl < lifetimeOf now st1
    · simp only [firstExpired, if_pos hc, Option.some.injEq] at hfe
      subst hfe
      exact ⟨st1, List.mem_cons_self _ _, hc⟩
    · simp only [firstExpired, if_neg hc] at hfe
      obtain ⟨st, hmem, hexp⟩ := ih pid hfe
      exact ⟨st, List.mem_cons_of_mem _ hmem, hexp⟩

theorem firstExpired_none (now ttl : Int) :
    ∀ l, firstExpired now ttl l = none →
      ∀ pid st, (pid, st) ∈ l → ¬ ttl < lifetimeOf now st := by
  intro l
  induction l with
  | nil => intro _ pid st hmem; simp at hmem
  | cons p rest ih =>
    obtain ⟨p1, st1⟩ := p
    intro hfe pid st hmem
    by_cases hc : ttl < lifetimeOf now st1
    · simp [firstExpired, hc] at hfe
    · simp only [firstExpired, if_neg hc] at hfe
      rcases List.mem_cons.mp hmem with heq | hmem2
      · cases heq
        exact hc
      · exact ih hfe pid st hmem2

theorem firstExpired_min (now ttl : Int) :
    ∀ l, List.Sorted (fun a b : Nat × Int => a.1 ≤ b.1) l →
      ∀ pid, firstExpired now ttl l = some pid →
      ∀ q st, (q, st) ∈ l → ttl < lifetimeOf now st → pid ≤ q := by
  intro l
  induction l with
  | nil => intro _ pid h; simp [firstExpired] at h
  | cons p rest ih =>
    obtain ⟨p1, st1⟩ := p
    intro hsort pid hfe q st hq hexp
    rw [List.sorted_cons] at hsort
    obtain ⟨hall, hsort2⟩ := hsort
    by_cases hc : ttl < lifetimeOf now st1
    · simp only [firstExpired, if_pos hc, Option.some.injEq] at hfe
      subst hfe
      rcases List.mem_cons.mp hq with heq | hmem2
      · cases heq
        exact Nat.le_refl _
      · exact hall (q, st) hmem2
    · simp only [firstExpired, if_neg hc] at hfe
      rcases List.mem_cons.mp hq with heq | hmem2
      · cases heq
        exact absurd hexp hc
      · exact ih hsort2 pid hfe q st hmem2 hexp

end ThriftPool.Renewer

/-- C2 counterexample: with `WORKER_TTL = 1` and two workers (pids 1 and 2,
both started at time 0) whose ages at `now = 2000000` both exceed the TTL,
one renewer tick SIGTERMs only pid 1 — not each expired worker. -/
theorem ThriftPool.Renewer.single_kill_counterexample :
    (ThriftPool.Renewer.loop_cb true 2000000 1 [(1, 0), (2, 0)] 1).killed = some 1
    ∧ (1 : Int) < ThriftPool.Renewer.lifetimeOf 2000000 0
    ∧ (ThriftPool.Renewer.loop_cb true 2000000 1 [(1, 0), (2, 0)] 1).killed
        ≠ some 2 := by
  refine ⟨by decide, by decide, by decide⟩

/-- C2 amended: on a renewer tick with the process manager ready, the tick
SIGTERMs at most one worker: the first worker in pid order whose age
`(now - start_time) // 1000` strictly exceeds `WORKER_TTL` (a
`ProcessNotFound` error being swallowed); if one was signalled the timer
repeat switches to `repeat_delay = 60`, otherwise it is set to
`resolution = 1`; when the manager is not ready the tick does nothing. -/
theorem ThriftPool.Renewer.loop_cb_spec (now ttl : Int)
    (boot : List (Nat × Int)) (rep : Nat) :
    (∀ pid, (ThriftPool.Renewer.loop_cb true now ttl boot rep).killed = some pid →
        ∃ st, (pid, st) ∈ boot ∧ ttl < ThriftPool.Renewer.lifetimeOf now st)
    ∧ ((ThriftPool.Renewer.loop_cb true now ttl boot rep).killed = none →
        ∀ pid st, (pid, st) ∈ boot → ¬ ttl < ThriftPool.Renewer.lifetimeOf now st)
    ∧ (∀ pid, (ThriftPool.Renewer.loop_cb true now ttl boot rep).killed = some pid →
        ∀ q st, (q, st) ∈ boot → ttl < ThriftPool.Renewer.lifetimeOf now st →
          pid ≤ q)
    ∧ ((ThriftPool.Renewer.loop_cb true now ttl boot rep).timerRepeat
        = if ((ThriftPool.Renewer.loop_cb true now ttl boot rep).killed).isSome
          then ThriftPool.Renewer.repeatDelay else ThriftPool.Renewer.resolution)
    ∧ (ThriftPool.Renewer.loop_cb false now ttl boot rep
        = ⟨none, rep⟩) := by
  have hmem : ∀ x : Nat × Int,
      x ∈ ThriftPool.Renewer.sortedByPid boot ↔ x ∈ boot := by
    intro x
    simp [ThriftPool.Renewer.sortedByPid]
  have hsorted : List.Sorted (fun a b : Nat × Int => a.1 ≤ b.1)
      (ThriftPool.Renewer.sortedByPid boot) :=
    List.sorted_insertionSort _ boot
  refine ⟨?_, ?_, ?_, ?_, rfl⟩
  · intro pid hk
    cases hfe : ThriftPool.Renewer.firstExpired now ttl
        (ThriftPool.Renewer.sortedByPid boot) with
    | none => simp [ThriftPool.Renewer.loop_cb, hfe] at hk
    | some p2 =>
      simp only [ThriftPool.Renewer.loop_cb, if_true, hfe,
        Option.some.injEq] at hk
      subst hk
      obtain ⟨st, hm, he⟩ :=
        ThriftPool.Renewer.firstExpired_mem now ttl _ p2 hfe
      exact ⟨st, (hmem _).mp hm, he⟩
  · intro hk pid st hm
    cases hfe : ThriftPool.Renewer.firstExpired now ttl
        (ThriftPool.Renewer.sortedByPid boot) with
    | none =>
      exact ThriftPool.Renewer.firstExpired_none now ttl _ hfe pid st
        ((hmem _).mpr hm)
    | some p2 => simp [ThriftPool.Renewer.loop_cb, hfe] at hk
  · intro pid hk q st hm he
    cases hfe : ThriftPool.Renewer.firstExpired now ttl
        (ThriftPool.Renewer.sortedByPid boot) with
    | none => simp [ThriftPool.Renewer.loop_cb, hfe] at hk
    | some p2 =>
      simp only [ThriftPool.Renewer.loop_cb, if_true, hfe,
        Option.some.injEq] at hk
      subst hk
      exact ThriftPool.Renewer.firstExpired_min now ttl _ hsorted p2 hfe q st
        ((hmem _).mpr hm) he
  · cases hfe : ThriftPool.Renewer.firstExpired now ttl
        (ThriftPool.Renewer.sortedByPid boot) with
    | none => simp [ThriftPool.Renewer.loop_cb, hfe]
    | some p2 => simp [ThriftPool.Renewer.loop_cb, hfe]

/-- C2 witness: one expired worker at a concrete tick. -/
theorem ThriftPool.Renewer.loop_cb_spec_witness :
    ∃ st, ((1 : Nat), st) ∈ [((1 : Nat), (0 : Int))]
      ∧ (1 : Int) < ThriftPool.Renewer.lifetimeOf 2000000 st :=
  (ThriftPool.Renewer.loop_cb_spec 2000000 1 [(1, 0)] 5).1 1 (by decide)

/-- C5: `Worker.process` runs the Thrift processor on the request frame and
sends back the serialized output buffer; any exception from the processor
is caught (never propagated) and logged, and an empty byte string is sent
as the reply instead. -/
theorem ThriftPool.SocketZmq.worker_process_spec {E : Type}
    (processor : List Nat → Except E (List Nat)) (frame : List Nat) :
    ((ThriftPool.SocketZmq.Worker.process processor frame).propagated = false)
    ∧ (∀ buf, processor frame = Except.ok buf →
        (ThriftPool.SocketZmq.Worker.process processor frame).sentReply = buf
        ∧ (ThriftPool.SocketZmq.Worker.process processor frame).loggedException
            = false)
    ∧ (∀ err, processor frame = Except.error err →
        (ThriftPool.SocketZmq.Worker.process processor frame).sentReply = []
        ∧ (ThriftPool.SocketZmq.Worker.process processor frame).loggedException
            = true) := by
  refine ⟨?_, ?_, ?_⟩
  · cases hp : processor frame <;> simp [ThriftPool.SocketZmq.Worker.process, hp]
  · intro buf hb
    simp [ThriftPool.SocketZmq.Worker.process, hb]
  · intro err he
    simp [ThriftPool.SocketZmq.Worker.process, he]

/-- C5 witness: a processor that always raises. -/
theorem ThriftPool.SocketZmq.worker_process_spec_witness :
    (ThriftPool.SocketZmq.Worker.process
        (fun _ : List Nat => (Except.error () : Except Unit (List Nat))) []).sentReply
      = []
    ∧ (ThriftPool.SocketZmq.Worker.process
        (fun _ : List Nat => (Except.error () : Except Unit (List Nat)))
          []).loggedException = true :=
  (ThriftPool.SocketZmq.worker_process_spec
    (fun _ : List Nat => (Except.error () : Except Unit (List Nat))) []).2.2 () rfl

/-- C6 counterexample: a hub `Waiter` holding the value 5 is not consumed by
`get()` — after `get()` returns the stored value the waiter still reports
ready (the slot still holds the value), not empty. -/
theorem ThriftPool.Hub.waiter_not_consumed_counterexample :
    ((((ThriftPool.Hub.HWaiter.mk0 (V := Nat) (E := Nat)).switch
          (some 5)).1.get 3).1
        = ThriftPool.Hub.GetOutcome.returned (some 5))
    ∧ ((((ThriftPool.Hub.HWaiter.mk0 (V := Nat) (E := Nat)).switch
          (some 5)).1.get 3).2.ready = true)
    ∧ ((((ThriftPool.Hub.HWaiter.mk0 (V := Nat) (E := Nat)).switch
          (some 5)).1.get 3).2 ≠ ThriftPool.Hub.HWaiter.mk0) := by
  refine ⟨by decide, by decide, by decide⟩

/-- C6 amended: every hub `Waiter` holds exactly one of
{empty, value, exception}: `ready()` is true iff it holds a value or an
exception and `successful()` iff it holds a value; `get()` returns the
stored value or raises the stored exception but leaves the slot (and the
whole waiter state) unchanged — the slot is NOT consumed on read. -/
theorem ThriftPool.Hub.waiter_slot_spec {V E : Type}
    (w : ThriftPool.Hub.HWaiter V E) (g : Nat) (v : Option V) (e : E) :
    (w.ready = true
        ↔ (w.successful = true ∨ ∃ e2, w.excSlot = ThriftPool.Hub.ExcSlot.exc e2))
    ∧ (w.successful = true ↔ w.excSlot = ThriftPool.Hub.ExcSlot.noExc)
    ∧ (w.excSlot = ThriftPool.Hub.ExcSlot.noExc →
        (w.get g).1 = ThriftPool.Hub.GetOutcome.returned w.value ∧ (w.get g).2 = w)
    ∧ (∀ e2, w.excSlot = ThriftPool.Hub.ExcSlot.exc e2 →
        (w.get g).1 = ThriftPool.Hub.GetOutcome.raised e2 ∧ (w.get g).2 = w)
    ∧ (w.greenlet = none →
        ((w.switch v).1.excSlot = ThriftPool.Hub.ExcSlot.noExc
          ∧ (w.switch v).1.value = v
          ∧ (w.throw e).1.excSlot = ThriftPool.Hub.ExcSlot.exc e)) := by
  obtain ⟨gl, val, slot⟩ := w
  refine ⟨?_, ?_, ?_, ?_, ?_⟩
  · cases slot <;>
      simp [ThriftPool.Hub.HWaiter.ready, ThriftPool.Hub.HWaiter.successful]
  · cases slot <;> simp [ThriftPool.Hub.HWaiter.successful]
  · intro hs
    cases slot <;> simp_all [ThriftPool.Hub.HWaiter.get]
  · intro e2 hs
    cases slot <;> simp_all [ThriftPool.Hub.HWaiter.get]
  · intro h
    subst h
    simp [ThriftPool.Hub.HWaiter.switch, ThriftPool.Hub.HWaiter.throw]

/-- C6 witness: a waiter holding the value 5, read by greenlet 3. -/
theorem ThriftPool.Hub.waiter_slot_spec_witness :
    ((⟨none, some 5, ThriftPool.Hub.ExcSlot.noExc⟩ :
        ThriftPool.Hub.HWaiter Nat Nat).get 3).1
      = ThriftPool.Hub.GetOutcome.returned (some 5)
    ∧ ((⟨none, some 5, ThriftPool.Hub.ExcSlot.noExc⟩ :
        ThriftPool.Hub.HWaiter Nat Nat).get 3).2
      = ⟨none, some 5, ThriftPool.Hub.ExcSlot.noExc⟩ :=
  (ThriftPool.Hub.waiter_slot_spec
    (⟨none, some 5, ThriftPool.Hub.ExcSlot.noExc⟩ : ThriftPool.Hub.HWaiter Nat Nat)
    3 none 0).2.2.1 rfl

/-- C7: `Hub.switch()` raises `RuntimeError` exactly when the currently
running greenlet is the hub's own loop greenlet; otherwise it switches
into the hub greenlet. -/
theorem ThriftPool.Hub.switch_raises_iff_in_hub (cur hubG : Nat) :
    (ThriftPool.Hub.hubSwitch cur hubG
        = ThriftPool.Hub.SwitchResult.runtimeError
            "Impossible to call blocking function in the event loop callback"
      ↔ cur = hubG)
    ∧ (cur ≠ hubG →
        ThriftPool.Hub.hubSwitch cur hubG
          = ThriftPool.Hub.SwitchResult.switched hubG) := by
  constructor
  · by_cases h : cur = hubG <;> simp [ThriftPool.Hub.hubSwitch, h]
  · intro h
    simp [ThriftPool.Hub.hubSwitch, h]

/-- C7 witness: a non-hub greenlet switches without raising. -/
theorem ThriftPool.Hub.switch_raises_iff_in_hub_witness :
    ThriftPool.Hub.hubSwitch 1 2 = ThriftPool.Hub.SwitchResult.switched 2 :=
  (ThriftPool.Hub.switch_raises_iff_in_hub 1 2).2 (by decide)

/-- C8: calling `hub.start()` a second time after it has been called is a
no-op (the hub greenlet is dead, so the switch returns at once), and
calling `hub.stop()` again after a completed `stop()` leaves the loop and
shutdown state unchanged and returns normally. -/
theorem ThriftPool.Hub.start_stop_idempotent :
    (∀ h : ThriftPool.Hub.HubState,
        ThriftPool.Hub.startOp (ThriftPool.Hub.startOp h) = ThriftPool.Hub.startOp h)
    ∧ (∀ h h2 : ThriftPool.Hub.HubState,
        ThriftPool.Hub.stopOp h = some h2 → ThriftPool.Hub.stopOp h2 = some h2) := by
  constructor
  · intro h
    obtain ⟨lr, sc, gd⟩ := h
    cases gd <;> simp [ThriftPool.Hub.startOp]
  · intro h h2 hs
    obtain ⟨lr, sc, gd⟩ := h
    cases lr with
    | true =>
      simp [ThriftPool.Hub.stopOp] at hs
      subst hs
      simp [ThriftPool.Hub.stopOp]
    | false =>
      cases sc with
      | true =>
        simp [ThriftPool.Hub.stopOp] at hs
        subst hs
        simp [ThriftPool.Hub.stopOp]
      | false =>
        simp [ThriftPool.Hub.stopOp] at hs

/-- C8 witness: stopping a hub whose loop runs, then stopping again. -/
theorem ThriftPool.Hub.start_stop_idempotent_witness :
    ThriftPool.Hub.stopOp ⟨false, true, true⟩ = some ⟨false, true, true⟩ :=
  ThriftPool.Hub.start_stop_idempotent.2 ⟨true, false, false⟩ ⟨false, true, true⟩ rfl

/-- C10: a per-worker admin GET responds 400 with body
`{"error": "bad_value"}` when the pid argument does not parse as an
integer, 404 with no body when it parses but is not a registered broker
pid, and 200 with the worker's JSON data for a registered pid. -/
theorem ThriftPool.Http.specific_client_get_spec (arg : String)
    (broker : List Int) (dataOf : Int → String) :
    (ThriftPool.Http.pyIntParse arg = none →
        ThriftPool.Http.specificClientGet arg broker dataOf
          = { status := 400, body := some ThriftPool.Http.RespBody.errBadValue })
    ∧ (∀ pid, ThriftPool.Http.pyIntParse arg = some pid → pid ∈ broker →
        ThriftPool.Http.specificClientGet arg broker dataOf
          = { status := 200,
              body := some (ThriftPool.Http.RespBody.jsonData (dataOf pid)) })
    ∧ (∀ pid, ThriftPool.Http.pyIntParse arg = some pid → pid ∉ broker →
        ThriftPool.Http.specificClientGet arg broker dataOf
          = { status := 404, body := none }) := by
  refine ⟨?_, ?_, ?_⟩
  · intro h
    simp [ThriftPool.Http.specificClientGet, h]
  · intro pid h hm
    simp [ThriftPool.Http.specificClientGet, h, hm]
  · intro pid h hm
    simp [ThriftPool.Http.specificClientGet, h, hm]

/-- C10 witness: a malformed pid, a registered pid and an unknown pid. -/
theorem ThriftPool.Http.specific_client_get_spec_witness :
    ThriftPool.Http.specificClientGet "abc" [] (fun _ => "d")
      = { status := 400, body := some ThriftPool.Http.RespBody.errBadValue }
    ∧ ThriftPool.Http.specificClientGet "7" [7] (fun _ => "d")
      = { status := 200, body := some (ThriftPool.Http.RespBody.jsonData "d") }
    ∧ ThriftPool.Http.specificClientGet "7" [8] (fun _ => "d")
      = { status := 404, body := none } :=
  ⟨(ThriftPool.Http.specific_client_get_spec "abc" [] (fun _ => "d")).1 (by decide),
   (ThriftPool.Http.specific_client_get_spec "7" [7] (fun _ => "d")).2.1 7
     (by decide) (by decide),
   (ThriftPool.Http.specific_client_get_spec "7" [8] (fun _ => "d")).2.2 7
     (by decide) (by decide)⟩
